import Mathlib

/-!
Shallow embedding of the `deforeign/ripp` front-end moderation glue code.

Each TypeScript handler is modelled as a pure Lean function from its inputs
plus an oracle "world" (the results the external HTTP/SDK calls would return)
to the ordered list of external calls it performs together with an
`Except Unit` result (`Except.error ()` models an exception escaping the
function to its caller; `Except.ok ()` models normal completion, including
completion after an internal `try/catch` swallowed an error).

Sources embedded:
  * `src/src/components/shared/FileUploader.tsx` (`onDrop`, `updateAppwriteFlags`)
  * `src/unnamed/part_000` (the second `FileUploader`: `onDrop`, `updateAppwriteFlags`)
  * `src/src/components/forms/PostForm.tsx` (`handleSubmit`,
    `checkForProhibitedContent`, `updateUserFlag`, `uploadFile`)
-/

namespace Ripp

/-- A prediction object of the ML inference response; the code reads only
`predictions[0].confidence`.  The JS number is modelled as a rational. -/
structure Prediction where
  confidence : ℚ
deriving Repr, DecidableEq

instance : Inhabited Prediction := ⟨⟨0⟩⟩

/-- `response.data` of the Roboflow call: `predictions` may be absent
(`undefined`, modelled `none`) or a (possibly empty) list. -/
structure MLData where
  predictions : Option (List Prediction)
deriving Repr, DecidableEq

/-- A match object of the Sightengine text-moderation response
(interface `Match` in PostForm.tsx). -/
structure TextMatch where
  «type» : String
  «match» : String
  start : Nat
  «end» : Nat
deriving Repr, DecidableEq

/-- `drug` field of the Sightengine response (interface `FlaggedResponse`). -/
structure DrugField where
  «matches» : List TextMatch
deriving Repr, DecidableEq

/-- `response.data` of the Sightengine call. -/
structure SightengineData where
  drug : DrugField
deriving Repr, DecidableEq

/-- The fields of the image document created by `FileUploader.onDrop`
(FileUploader.tsx lines 59-68). -/
structure ImageDoc where
  imageId : String
  imageUrl : String
  flag : Bool
  creator : String
  caption : String
  likes : List String
  tags : List String
deriving Repr, DecidableEq

/-- Form value of `PostForm` (zod `PostValidation` shape); files are opaque
string references. -/
structure PostFormValue where
  caption : String
  file : List String
  location : String
  tags : String
deriving Repr, DecidableEq

/-- An existing post document (`Models.Document`), the fields `handleSubmit`
reads. -/
structure PostDoc where
  id : String
  imageId : String
  imageUrl : String
deriving Repr, DecidableEq

/-- `action` prop of `PostForm`. -/
inductive PostAction where
  | create
  | update
deriving Repr, DecidableEq

/-- Payload of `updatePost({...value, postId, imageId, imageUrl})`. -/
structure UpdatePostPayload where
  caption : String
  file : List String
  location : String
  tags : String
  postId : String
  imageId : String
  imageUrl : String
deriving Repr, DecidableEq

/-- Payload of `createPost({...value, userId, imageId})`; `imageId` is
`undefined` (`none`) when no file was uploaded. -/
structure NewPostPayload where
  caption : String
  file : List String
  location : String
  tags : String
  userId : String
  imageId : Option String
deriving Repr, DecidableEq

/-- One external call started by the code, with the arguments it was given. -/
inductive ExtCall where
  | storageCreateFile (bucketId fileIdArg fileRef : String)
  | dbCreateDocument (databaseId collectionId docIdArg : String) (doc : ImageDoc)
  | mlPredict (url : String) (params : List (String × String))
  | dbUpdateDocumentFlag (databaseId collectionId docId : String) (flag : Bool)
  | dbListDocuments (databaseId collectionId : String) (flagQueryValue : Bool)
  | sightengineTextCheck (url : String) (formData : List (String × String))
  | createPostCall (p : NewPostPayload)
  | updatePostCall (p : UpdatePostPayload)
deriving Repr, DecidableEq

/-- Environment variables and client-side generated ids, as opaque strings. -/
structure Env where
  APPWRITE_PROJECT_ID : String
  APPWRITE_ENDPOINT : String
  DATABASE_ID : String
  USER_COLLECTION_ID : String
  IMAGE_COLLECTION_ID : String
  STORAGE_BUCKET_ID : String
  APPWRITE_DB_ID : String
  SIGHTENGINE_USER : String
  SIGHTENGINE_SECRET : String
deriving Repr, DecidableEq

/-- `const ML_API_URL = "https://detect.roboflow.com/drug_detection_project/9"`. -/
def ML_API_URL : String := "https://detect.roboflow.com/drug_detection_project/9"

/-- `const ML_API_KEY = "Ajvqkk4nNlEiT1PUvWWD"`. -/
def ML_API_KEY : String := "Ajvqkk4nNlEiT1PUvWWD"

/-- Sightengine endpoint used by `checkForProhibitedContent`. -/
def SIGHTENGINE_URL : String := "https://api.sightengine.com/1.0/text/check.json"

/-- The storage view URL built in both FileUploader variants (template literal,
FileUploader.tsx line 52 / part_000 line 48). -/
def viewUrl (env : Env) (fileId : String) : String :=
  env.APPWRITE_ENDPOINT ++ "/storage/buckets/" ++ env.STORAGE_BUCKET_ID
    ++ "/files/" ++ fileId ++ "/view?project=" ++ env.APPWRITE_PROJECT_ID

/-! ## `src/src/components/shared/FileUploader.tsx` -/

/-- Oracle results for `updateAppwriteFlags` (shared FileUploader version). -/
structure FlagsWorld where
  updateUserResult : Except Unit Unit
  updateImageResult : Except Unit Unit

/-- `updateAppwriteFlags(userId, imageId, flagValue)` of
FileUploader.tsx lines 107-136: update the user document's flag, then the
image document's flag; any error is caught and only logged, so the function
never throws. -/
def updateAppwriteFlags (env : Env) (w : FlagsWorld)
    (userId imageId : String) (flagValue : Bool) :
    List ExtCall × Except Unit Unit :=
  let userCall := ExtCall.dbUpdateDocumentFlag env.DATABASE_ID
      env.USER_COLLECTION_ID userId flagValue
  match w.updateUserResult with
  | Except.error _ => ([userCall], Except.ok ())
  | Except.ok _ =>
    let imageCall := ExtCall.dbUpdateDocumentFlag env.DATABASE_ID
        env.IMAGE_COLLECTION_ID imageId flagValue
    ([userCall, imageCall], Except.ok ())

/-- Oracle results for the shared `onDrop`: the client-side `ID.unique()`
values and the results of the storage upload, document creation and ML call. -/
structure OnDropWorld where
  createFileIdArg : String
  createFileResult : Except Unit String
  createDocIdArg : String
  createDocumentResult : Except Unit String
  mlResult : Except Unit MLData
  flags : FlagsWorld

/-- `onDrop` of the shared FileUploader (FileUploader.tsx lines 28-98), from
the start of its `try` block: upload the file, create the image document,
run the ML prediction, and when the first prediction's confidence times 100
exceeds 50 update the user's and the image document's flags.  The outer
`catch` logs every error, so the handler never throws.  `file0` is
`acceptedFiles[0]`. -/
def onDrop (env : Env) (w : OnDropWorld) (userId file0 : String) :
    List ExtCall × Except Unit Unit :=
  let c1 := ExtCall.storageCreateFile env.STORAGE_BUCKET_ID w.createFileIdArg file0
  match w.createFileResult with
  | Except.error _ => ([c1], Except.ok ())
  | Except.ok fileId =>
    let fileUrl := viewUrl env fileId
    let doc : ImageDoc :=
      { imageId := fileId, imageUrl := fileUrl, flag := false,
        creator := userId, caption := "", likes := [], tags := [] }
    let c2 := ExtCall.dbCreateDocument env.DATABASE_ID env.IMAGE_COLLECTION_ID
        w.createDocIdArg doc
    match w.createDocumentResult with
    | Except.error _ => ([c1, c2], Except.ok ())
    | Except.ok imageDocId =>
      let c3 := ExtCall.mlPredict ML_API_URL
          [("api_key", ML_API_KEY), ("image", fileUrl)]
      match w.mlResult with
      | Except.error _ => ([c1, c2, c3], Except.ok ())
      | Except.ok data =>
        match data.predictions with
        | some (p :: _) =>
          if p.confidence * 100 > 50 then
            let fl := updateAppwriteFlags env w.flags userId imageDocId true
            ([c1, c2, c3] ++ fl.1, Except.ok ())
          else ([c1, c2, c3], Except.ok ())
        | _ => ([c1, c2, c3], Except.ok ())

/-! ## `src/unnamed/part_000` (the second FileUploader) -/

/-- Oracle results for `updateAppwriteFlags` of part_000: the two
`listDocuments` queries return the `$id`s of the matching documents in
order. -/
structure PFlagsWorld where
  listUsersResult : Except Unit (List String)
  updateUserResult : Except Unit Unit
  listImagesResult : Except Unit (List String)
  updateImageResult : Except Unit Unit

/-- `updateAppwriteFlags(flagValue)` of part_000 lines 84-130: list user
documents with `flag == !flagValue` and update the first one, then do the
same for the image collection; any error is caught and only logged. -/
def updateAppwriteFlagsP (env : Env) (w : PFlagsWorld) (flagValue : Bool) :
    List ExtCall × Except Unit Unit :=
  let l1 := ExtCall.dbListDocuments env.DATABASE_ID env.USER_COLLECTION_ID (!flagValue)
  match w.listUsersResult with
  | Except.error _ => ([l1], Except.ok ())
  | Except.ok userDocs =>
    let userStep : List ExtCall × Except Unit Unit :=
      match userDocs with
      | [] => ([], Except.ok ())
      | userId :: _ =>
        ([ExtCall.dbUpdateDocumentFlag env.DATABASE_ID env.USER_COLLECTION_ID
            userId flagValue], w.updateUserResult)
    match userStep.2 with
    | Except.error _ => ([l1] ++ userStep.1, Except.ok ())
    | Except.ok _ =>
      let l2 := ExtCall.dbListDocuments env.DATABASE_ID env.IMAGE_COLLECTION_ID (!flagValue)
      match w.listImagesResult with
      | Except.error _ => ([l1] ++ userStep.1 ++ [l2], Except.ok ())
      | Except.ok imageDocs =>
        match imageDocs with
        | [] => ([l1] ++ userStep.1 ++ [l2], Except.ok ())
        | imageId :: _ =>
          ([l1] ++ userStep.1
            ++ [l2, ExtCall.dbUpdateDocumentFlag env.DATABASE_ID
                  env.IMAGE_COLLECTION_ID imageId flagValue], Except.ok ())

/-- Oracle results for part_000's `onDrop`. -/
structure POnDropWorld where
  createFileResult : Except Unit String
  mlResult : Except Unit MLData
  flags : PFlagsWorld

/-- `onDrop` of part_000 (lines 27-73), from the start of its `try` block:
upload the file (with the literal string "unique()" as id argument), run the
ML prediction, and when the first prediction's confidence times 100 exceeds
50 call `updateAppwriteFlags(true)`.  No image document is created.  The
outer `catch` logs every error. -/
def onDropP (env : Env) (w : POnDropWorld) (file0 : String) :
    List ExtCall × Except Unit Unit :=
  let c1 := ExtCall.storageCreateFile env.STORAGE_BUCKET_ID "unique()" file0
  match w.createFileResult with
  | Except.error _ => ([c1], Except.ok ())
  | Except.ok fileId =>
    let fileUrl := viewUrl env fileId
    let c2 := ExtCall.mlPredict ML_API_URL
        [("api_key", ML_API_KEY), ("image", fileUrl)]
    match w.mlResult with
    | Except.error _ => ([c1, c2], Except.ok ())
    | Except.ok data =>
      match data.predictions with
      | some (p :: _) =>
        if p.confidence * 100 > 50 then
          let fl := updateAppwriteFlagsP env w.flags true
          ([c1, c2] ++ fl.1, Except.ok ())
        else ([c1, c2], Except.ok ())
      | _ => ([c1, c2], Except.ok ())

/-! ## `src/src/components/forms/PostForm.tsx` -/

/-- Oracle result for the Sightengine text-moderation call. -/
structure CheckWorld where
  textCheckResult : Except Unit SightengineData

/-- `checkForProhibitedContent(caption)` (PostForm.tsx lines 134-155): POST
the form data (text, lang=en, categories=drug, mode=rules, api_user,
api_secret) to the Sightengine endpoint and return whether some match in
`response.data.drug.matches` has type "drug"; on error, toast and return
false. -/
def checkForProhibitedContent (env : Env) (w : CheckWorld) (caption : String) :
    List ExtCall × Bool :=
  let fd : List (String × String) :=
    [("text", caption), ("lang", "en"), ("categories", "drug"), ("mode", "rules"),
     ("api_user", env.SIGHTENGINE_USER), ("api_secret", env.SIGHTENGINE_SECRET)]
  let call := ExtCall.sightengineTextCheck SIGHTENGINE_URL fd
  match w.textCheckResult with
  | Except.error _ => ([call], false)
  | Except.ok data =>
    ([call], data.drug.matches.any (fun m => m.type == "drug"))

/-- `updateUserFlag(userId)` (PostForm.tsx lines 158-170): update document
`userId` of collection "Users" with `{flag: true}`; any error is caught and
surfaced via toast, so the function never throws. -/
def updateUserFlag (env : Env) (updateResult : Except Unit Unit) (userId : String) :
    List ExtCall × Except Unit Unit :=
  let call := ExtCall.dbUpdateDocumentFlag env.APPWRITE_DB_ID "Users" userId true
  match updateResult with
  | Except.error _ => ([call], Except.ok ())
  | Except.ok _ => ([call], Except.ok ())

/-- `uploadFile(file)` (PostForm.tsx lines 173-185): create the storage file
with the literal string "unique()" as id; on error, toast and RETHROW, so the
error propagates to the caller. -/
def uploadFile (env : Env) (uploadResult : Except Unit String) (file : String) :
    List ExtCall × Except Unit String :=
  let call := ExtCall.storageCreateFile env.STORAGE_BUCKET_ID "unique()" file
  match uploadResult with
  | Except.error e => ([call], Except.error e)
  | Except.ok fid => ([call], Except.ok fid)

/-- JavaScript `a || b` on `fileId || post.imageId`: `fileId` is `undefined`
(`none`) or a string, and the empty string is falsy. -/
def jsOrElse (a : Option String) (b : String) : String :=
  match a with
  | none => b
  | some s => if s = "" then b else s

/-- Oracle results for `handleSubmit`: the moderation check, the user-flag
update, the file upload, and the `updatePost`/`createPost` mutations (the
`Bool` is the truthiness of the value the mutation resolves with). -/
structure SubmitWorld where
  check : CheckWorld
  updateUserFlagResult : Except Unit Unit
  uploadFileResult : Except Unit String
  updatePostResult : Except Unit Bool
  createPostResult : Except Unit Bool

/-- The tail of `handleSubmit` after the upload step (PostForm.tsx lines
107-130): if a post is given and the action is Update, call `updatePost`
with `{...value, postId, imageId: fileId || post.imageId, imageUrl:
post.imageUrl}`; otherwise call `createPost` with `{...value, userId,
imageId: fileId}`.  A rejected mutation propagates (it is not wrapped in
try/catch). -/
def handleSubmitPostStep (w : SubmitWorld) (userId : String)
    (post : Option PostDoc) (action : PostAction) (value : PostFormValue)
    (fileId : Option String) : List ExtCall × Except Unit Unit :=
  match post, action with
  | some p, PostAction.update =>
    let payload : UpdatePostPayload :=
      { caption := value.caption, file := value.file, location := value.location,
        tags := value.tags, postId := p.id,
        imageId := jsOrElse fileId p.imageId, imageUrl := p.imageUrl }
    match w.updatePostResult with
    | Except.error e => ([ExtCall.updatePostCall payload], Except.error e)
    | Except.ok _ => ([ExtCall.updatePostCall payload], Except.ok ())
  | _, _ =>
    let payload : NewPostPayload :=
      { caption := value.caption, file := value.file, location := value.location,
        tags := value.tags, userId := userId, imageId := fileId }
    match w.createPostResult with
    | Except.error e => ([ExtCall.createPostCall payload], Except.error e)
    | Except.ok _ => ([ExtCall.createPostCall payload], Except.ok ())

/-- `handleSubmit(value)` (PostForm.tsx lines 90-131): await the caption
moderation check; if flagged, await the user-flag update; if a file is
selected, await the upload (whose error propagates); then await the post
update or creation. -/
def handleSubmit (env : Env) (w : SubmitWorld) (userId : String)
    (post : Option PostDoc) (action : PostAction) (value : PostFormValue) :
    List ExtCall × Except Unit Unit :=
  let ck := checkForProhibitedContent env w.check value.caption
  let flagTrace :=
    if ck.2 then (updateUserFlag env w.updateUserFlagResult userId).1 else []
  match value.file with
  | [] =>
    let ps := handleSubmitPostStep w userId post action value none
    (ck.1 ++ flagTrace ++ ps.1, ps.2)
  | f :: _ =>
    let up := uploadFile env w.uploadFileResult f
    match up.2 with
    | Except.error e => (ck.1 ++ flagTrace ++ up.1, Except.error e)
    | Except.ok fid =>
      let ps := handleSubmitPostStep w userId post action value (some fid)
      (ck.1 ++ flagTrace ++ up.1 ++ ps.1, ps.2)

/-! ## Trace helpers -/

/-- Is this call a `{flag: ...}` document update? -/
def isFlagUpdate : ExtCall → Bool
  | ExtCall.dbUpdateDocumentFlag _ _ _ _ => true
  | _ => false

/-- The flag-update calls of a trace, in order. -/
def flagUpdates (t : List ExtCall) : List ExtCall := t.filter isFlagUpdate

/-- Is this call a post create/update mutation? -/
def isPostWrite : ExtCall → Bool
  | ExtCall.createPostCall _ => true
  | ExtCall.updatePostCall _ => true
  | _ => false

/-- Is this call a storage file upload? -/
def isStorageCreate : ExtCall → Bool
  | ExtCall.storageCreateFile _ _ _ => true
  | _ => false

/-- Position of a call in the `handleSubmit` pipeline, for the sequencing
claim: moderation check, then flag update, then upload, then post write. -/
def pipelineRank : ExtCall → Nat
  | ExtCall.sightengineTextCheck _ _ => 0
  | ExtCall.dbUpdateDocumentFlag _ _ _ _ => 1
  | ExtCall.storageCreateFile _ _ _ => 2
  | ExtCall.createPostCall _ => 3
  | ExtCall.updatePostCall _ => 3
  | _ => 1

/-- The user-flag segment of a `handleSubmit` trace: the `updateUserFlag`
call when the moderation check flagged the caption, nothing otherwise. -/
def flagPartOf (env : Env) (w : SubmitWorld) (uid : String)
    (value : PostFormValue) : List ExtCall :=
  if (checkForProhibitedContent env w.check value.caption).2 then
    (updateUserFlag env w.updateUserFlagResult uid).1
  else []

/-- The flag updates the C1 claim predicts: both flags set to true exactly
when the predictions list is non-empty and the first prediction's confidence
times 100 is strictly greater than 50, and no flag update otherwise. -/
def expectedFlagTrace (env : Env) (userId docId : String)
    (preds : Option (List Prediction)) : List ExtCall :=
  match preds with
  | some (p :: _) =>
    if p.confidence * 100 > 50 then
      [ExtCall.dbUpdateDocumentFlag env.DATABASE_ID env.USER_COLLECTION_ID
         userId true,
       ExtCall.dbUpdateDocumentFlag env.DATABASE_ID env.IMAGE_COLLECTION_ID
         docId true]
    else []
  | _ => []

/-- The single flag update part_000 performs on a collection: the first
document returned by its flag=false query, or nothing when that query
result is empty. -/
def firstUnflaggedTrace (env : Env) (col : String) (docs : List String) :
    List ExtCall :=
  match docs with
  | [] => []
  | d :: _ => [ExtCall.dbUpdateDocumentFlag env.DATABASE_ID col d true]

/-! ## Concrete fixtures for witnesses and counterexamples -/

/-- A concrete environment used to instantiate the theorems. -/
def testEnv : Env :=
  { APPWRITE_PROJECT_ID := "proj", APPWRITE_ENDPOINT := "https://aw",
    DATABASE_ID := "db", USER_COLLECTION_ID := "users",
    IMAGE_COLLECTION_ID := "images", STORAGE_BUCKET_ID := "bucket",
    APPWRITE_DB_ID := "db2", SIGHTENGINE_USER := "su", SIGHTENGINE_SECRET := "ss" }

/-- A fully successful shared-uploader run whose first prediction has
confidence 0.9. -/
def wHigh : OnDropWorld :=
  { createFileIdArg := "uid1", createFileResult := Except.ok "file1",
    createDocIdArg := "uid2", createDocumentResult := Except.ok "imgdoc1",
    mlResult := Except.ok ⟨some [⟨9/10⟩]⟩,
    flags := { updateUserResult := Except.ok (), updateImageResult := Except.ok () } }

/-- A fully successful part_000 run with the same file and ML result as
`wHigh`, in a database whose first unflagged user is "bob" and first
unflagged image is "img7". -/
def pwHigh : POnDropWorld :=
  { createFileResult := Except.ok "file1",
    mlResult := Except.ok ⟨some [⟨9/10⟩]⟩,
    flags := { listUsersResult := Except.ok ["bob", "carol"],
               updateUserResult := Except.ok (),
               listImagesResult := Except.ok ["img7"],
               updateImageResult := Except.ok () } }

/-- A submit world whose moderation response contains a drug match and whose
other calls all succeed. -/
def swFlagged : SubmitWorld :=
  { check := { textCheckResult := Except.ok ⟨⟨[⟨"drug", "weed", 4, 8⟩]⟩⟩ },
    updateUserFlagResult := Except.ok (),
    uploadFileResult := Except.ok "file9",
    updatePostResult := Except.ok true,
    createPostResult := Except.ok true }

/-- A submit world where the file upload rejects and everything else
succeeds (the moderation response has no match). -/
def swUploadFail : SubmitWorld :=
  { check := { textCheckResult := Except.ok ⟨⟨[]⟩⟩ },
    updateUserFlagResult := Except.ok (),
    uploadFileResult := Except.error (),
    updatePostResult := Except.ok true,
    createPostResult := Except.ok true }

/-- A submit world where the moderation request itself rejects. -/
def swCheckFail : SubmitWorld :=
  { check := { textCheckResult := Except.error () },
    updateUserFlagResult := Except.ok (),
    uploadFileResult := Except.ok "file9",
    updatePostResult := Except.ok true,
    createPostResult := Except.ok true }

/-- A form value with a flagged caption and no file selected. -/
def valNoFile : PostFormValue :=
  { caption := "buy weed", file := [], location := "", tags := "" }

/-- A form value with a file selected. -/
def valFile : PostFormValue :=
  { caption := "hello", file := ["f1"], location := "", tags := "" }

/-- An existing post document. -/
def postD : PostDoc := { id := "p1", imageId := "oldImg", imageUrl := "oldUrl" }

/-! ## Trace lemmas shared by the claims -/

lemma mem_checkTrace (env : Env) (cw : CheckWorld) (caption : String) (c : ExtCall)
    (h : c ∈ (checkForProhibitedContent env cw caption).1) :
    c = ExtCall.sightengineTextCheck SIGHTENGINE_URL
      [("text", caption), ("lang", "en"), ("categories", "drug"), ("mode", "rules"),
       ("api_user", env.SIGHTENGINE_USER), ("api_secret", env.SIGHTENGINE_SECRET)] := by
  rcases cw with ⟨_ | data⟩ <;> simp_all [checkForProhibitedContent]

lemma mem_userFlagTrace (env : Env) (r : Except Unit Unit) (uid : String) (c : ExtCall)
    (h : c ∈ (updateUserFlag env r uid).1) :
    c = ExtCall.dbUpdateDocumentFlag env.APPWRITE_DB_ID "Users" uid true := by
  rcases r with e | u <;> simp_all [updateUserFlag]

lemma userFlagTrace_eq (env : Env) (r : Except Unit Unit) (uid : String) :
    (updateUserFlag env r uid).1 =
      [ExtCall.dbUpdateDocumentFlag env.APPWRITE_DB_ID "Users" uid true] := by
  rcases r with e | u <;> simp [updateUserFlag]

lemma mem_uploadTrace (env : Env) (r : Except Unit String) (f : String) (c : ExtCall)
    (h : c ∈ (uploadFile env r f).1) :
    c = ExtCall.storageCreateFile env.STORAGE_BUCKET_ID "unique()" f := by
  rcases r with e | fid <;> simp_all [uploadFile]

lemma uploadTrace_eq (env : Env) (r : Except Unit String) (f : String) :
    (uploadFile env r f).1 =
      [ExtCall.storageCreateFile env.STORAGE_BUCKET_ID "unique()" f] := by
  rcases r with e | fid <;> simp [uploadFile]

lemma mem_postStepTrace (w : SubmitWorld) (uid : String) (post : Option PostDoc)
    (action : PostAction) (value : PostFormValue) (fid : Option String) (c : ExtCall)
    (h : c ∈ (handleSubmitPostStep w uid post action value fid).1) :
    isPostWrite c = true := by
  obtain ⟨ck, uu, uf, up, cp⟩ := w
  rcases post with _ | p <;> rcases action with _ | _ <;>
    rcases up with e | b <;> rcases cp with e2 | b2 <;>
    simp_all [handleSubmitPostStep, isPostWrite]

lemma postStepTrace_ne_nil (w : SubmitWorld) (uid : String) (post : Option PostDoc)
    (action : PostAction) (value : PostFormValue) (fid : Option String) :
    (handleSubmitPostStep w uid post action value fid).1 ≠ [] := by
  obtain ⟨ck, uu, uf, up, cp⟩ := w
  rcases post with _ | p <;> rcases action with _ | _ <;>
    rcases up with e | b <;> rcases cp with e2 | b2 <;>
    simp [handleSubmitPostStep]

lemma checkTrace_eq (env : Env) (cw : CheckWorld) (caption : String) :
    (checkForProhibitedContent env cw caption).1 =
      [ExtCall.sightengineTextCheck SIGHTENGINE_URL
        [("text", caption), ("lang", "en"), ("categories", "drug"), ("mode", "rules"),
         ("api_user", env.SIGHTENGINE_USER), ("api_secret", env.SIGHTENGINE_SECRET)]] := by
  rcases cw with ⟨_ | data⟩ <;> simp [checkForProhibitedContent]

lemma postStepTrace_eq (w : SubmitWorld) (uid : String) (post : Option PostDoc)
    (action : PostAction) (value : PostFormValue) (fid : Option String) :
    ∃ pc, (handleSubmitPostStep w uid post action value fid).1 = [pc] ∧
      isPostWrite pc = true := by
  obtain ⟨ck, uu, uf, up, cp⟩ := w
  rcases post with _ | p <;> rcases action with _ | _ <;>
    rcases up with e | b <;> rcases cp with e2 | b2 <;>
    exact ⟨_, rfl, rfl⟩

lemma mem_postStep_update (w : SubmitWorld) (uid : String) (p : PostDoc)
    (value : PostFormValue) (fid : Option String) (q : UpdatePostPayload)
    (h : ExtCall.updatePostCall q ∈
      (handleSubmitPostStep w uid (some p) PostAction.update value fid).1) :
    q = { caption := value.caption, file := value.file, location := value.location,
          tags := value.tags, postId := p.id, imageId := jsOrElse fid p.imageId,
          imageUrl := p.imageUrl } := by
  obtain ⟨ck, uu, uf, up, cp⟩ := w
  rcases up with e | b <;> simp_all [handleSubmitPostStep]

lemma postStep_update_mem (w : SubmitWorld) (uid : String) (p : PostDoc)
    (value : PostFormValue) (fid : Option String) :
    ExtCall.updatePostCall
      { caption := value.caption, file := value.file, location := value.location,
        tags := value.tags, postId := p.id, imageId := jsOrElse fid p.imageId,
        imageUrl := p.imageUrl } ∈
      (handleSubmitPostStep w uid (some p) PostAction.update value fid).1 := by
  obtain ⟨ck, uu, uf, up, cp⟩ := w
  rcases up with e | b <;> simp [handleSubmitPostStep]

lemma mem_flagPart (env : Env) (w : SubmitWorld) (uid : String) (value : PostFormValue)
    (c : ExtCall) (h : c ∈ flagPartOf env w uid value) :
    c = ExtCall.dbUpdateDocumentFlag env.APPWRITE_DB_ID "Users" uid true := by
  by_cases hck : (checkForProhibitedContent env w.check value.caption).2 <;>
    simp_all [flagPartOf]
  exact mem_userFlagTrace env w.updateUserFlagResult uid c h

lemma flagPart_eq (env : Env) (w : SubmitWorld) (uid : String) (value : PostFormValue) :
    flagPartOf env w uid value =
      if (checkForProhibitedContent env w.check value.caption).2 then
        [ExtCall.dbUpdateDocumentFlag env.APPWRITE_DB_ID "Users" uid true]
      else [] := by
  by_cases hfl : (checkForProhibitedContent env w.check value.caption).2 <;>
    simp [flagPartOf, hfl, userFlagTrace_eq]

lemma handleSubmit_trace_decomp (env : Env) (w : SubmitWorld) (uid : String)
    (post : Option PostDoc) (action : PostAction) (value : PostFormValue) :
    ∃ (uploadPart postPart : List ExtCall),
      (handleSubmit env w uid post action value).1 =
        (checkForProhibitedContent env w.check value.caption).1
          ++ flagPartOf env w uid value ++ uploadPart ++ postPart ∧
      (∀ c ∈ uploadPart,
        ∃ f, c = ExtCall.storageCreateFile env.STORAGE_BUCKET_ID "unique()" f) ∧
      (∀ c ∈ postPart, isPostWrite c = true) := by
  rcases hf : value.file with _ | ⟨f, fs⟩
  · refine ⟨[], (handleSubmitPostStep w uid post action value none).1, ?_, ?_, ?_⟩
    · simp [handleSubmit, hf, flagPartOf]
    · simp
    · intro c hc; exact mem_postStepTrace w uid post action value none c hc
  · rcases hup : w.uploadFileResult with e | fid
    · refine ⟨(uploadFile env w.uploadFileResult f).1, [], ?_, ?_, ?_⟩
      · simp [handleSubmit, hf, flagPartOf, uploadFile, hup]
      · intro c hc; exact ⟨f, mem_uploadTrace env w.uploadFileResult f c hc⟩
      · simp
    · refine ⟨(uploadFile env w.uploadFileResult f).1,
        (handleSubmitPostStep w uid post action value (some fid)).1, ?_, ?_, ?_⟩
      · simp [handleSubmit, hf, flagPartOf, uploadFile, hup]
      · intro c hc; exact ⟨f, mem_uploadTrace env w.uploadFileResult f c hc⟩
      · intro c hc; exact mem_postStepTrace w uid post action value (some fid) c hc

/-! ## Claims -/

/-- C1: in a run of the shared `FileUploader.onDrop` in which the storage
upload, the document creation and the ML request all complete (and the
user-flag write does not reject), the user's and the image document's flags
are set to true if and only if the predictions list is present and non-empty
and its first prediction's confidence times 100 is strictly greater than 50;
otherwise no flag update is performed at all. -/
theorem onDrop_flag_threshold (env : Env) (w : OnDropWorld)
    (userId file0 fileId docId : String) (preds : Option (List Prediction))
    (h1 : w.createFileResult = Except.ok fileId)
    (h2 : w.createDocumentResult = Except.ok docId)
    (h3 : w.mlResult = Except.ok ⟨preds⟩)
    (h4 : w.flags.updateUserResult = Except.ok ()) :
    flagUpdates (onDrop env w userId file0).1 =
      expectedFlagTrace env userId docId preds := by
  obtain ⟨cfa, cfr, cda, cdr, ml, ⟨fu, fi⟩⟩ := w
  dsimp only at h1 h2 h3 h4
  subst h1 h2 h3 h4
  rcases preds with _ | ⟨_ | ⟨p, rest⟩⟩ <;>
    simp [onDrop, expectedFlagTrace, flagUpdates, isFlagUpdate,
      updateAppwriteFlags, List.filter]
  by_cases hc : p.confidence * 100 > 50 <;>
    simp [hc, onDrop, expectedFlagTrace, flagUpdates, isFlagUpdate,
      updateAppwriteFlags, List.filter]

/-- C1 witness: the run `wHigh` (confidence 0.9) sets exactly the uploading
user's and the created image document's flags to true. -/
theorem onDrop_flag_threshold_witness :
    flagUpdates (onDrop testEnv wHigh "alice" "f").1 =
      [ExtCall.dbUpdateDocumentFlag "db" "users" "alice" true,
       ExtCall.dbUpdateDocumentFlag "db" "images" "imgdoc1" true] := by
  have h := onDrop_flag_threshold testEnv wHigh "alice" "f" "file1" "imgdoc1"
    (some [⟨9/10⟩]) rfl rfl rfl rfl
  rw [h]
  norm_num [expectedFlagTrace, testEnv]

/-- C6: when the storage upload returns id `fileId`, every image document
the shared `onDrop` creates is created in the image collection with exactly
the fields `imageId = fileId`, `imageUrl` the storage view URL built from
`fileId`, `flag = false`, `creator` the uploading user, empty caption, empty
likes and empty tags — and that creation call is indeed performed. -/
theorem onDrop_imageDoc_fields (env : Env) (w : OnDropWorld)
    (userId file0 fileId : String)
    (h1 : w.createFileResult = Except.ok fileId) :
    (∀ c col did doc,
        ExtCall.dbCreateDocument c col did doc ∈ (onDrop env w userId file0).1 →
        c = env.DATABASE_ID ∧ col = env.IMAGE_COLLECTION_ID ∧
        did = w.createDocIdArg ∧
        doc = { imageId := fileId, imageUrl := viewUrl env fileId, flag := false,
                creator := userId, caption := "", likes := [], tags := [] }) ∧
    ExtCall.dbCreateDocument env.DATABASE_ID env.IMAGE_COLLECTION_ID
        w.createDocIdArg
        { imageId := fileId, imageUrl := viewUrl env fileId, flag := false,
          creator := userId, caption := "", likes := [], tags := [] }
      ∈ (onDrop env w userId file0).1 := by
  obtain ⟨cfa, cfr, cda, cdr, ml, ⟨fu, fi⟩⟩ := w
  dsimp only at h1 ⊢
  subst h1
  constructor
  · intro c col did doc hmem
    unfold onDrop at hmem
    rcases cdr with e | docId <;> rcases ml with e2 | ⟨_ | (_ | ⟨p, rest⟩)⟩ <;>
      rcases fu with e3 | u3 <;>
      (dsimp only at hmem; try split_ifs at hmem) <;>
      simp_all [updateAppwriteFlags]
  · unfold onDrop
    rcases cdr with e | docId <;> rcases ml with e2 | ⟨_ | (_ | ⟨p, rest⟩)⟩ <;>
      rcases fu with e3 | u3 <;>
      (dsimp only; try split_ifs) <;>
      simp [updateAppwriteFlags]

/-- C6 witness: in the run `wHigh` the image document is created with
exactly the record fields of the claim. -/
theorem onDrop_imageDoc_fields_witness :
    ExtCall.dbCreateDocument "db" "images" "uid2"
      { imageId := "file1",
        imageUrl := "https://aw/storage/buckets/bucket/files/file1/view?project=proj",
        flag := false, creator := "alice", caption := "",
        likes := [], tags := [] }
      ∈ (onDrop testEnv wHigh "alice" "f").1 := by
  have h := (onDrop_imageDoc_fields testEnv wHigh "alice" "f" "file1" rfl).2
  simpa [testEnv, wHigh, viewUrl] using h

/-- C9: no operation of this codebase ever writes `flag = false` to an
existing document: every `updateDocument` flag write performed by the shared
`onDrop`, by part_000's `onDrop` and by `handleSubmit` carries the value
true, and the only false flag is the initial `flag := false` of the image
document created by the shared `onDrop`. -/
theorem flag_writes_always_true (env : Env) :
    (∀ (w : OnDropWorld) (userId file0 c u i : String) (b : Bool),
        ExtCall.dbUpdateDocumentFlag c u i b ∈ (onDrop env w userId file0).1 →
        b = true) ∧
    (∀ (w : POnDropWorld) (file0 c u i : String) (b : Bool),
        ExtCall.dbUpdateDocumentFlag c u i b ∈ (onDropP env w file0).1 →
        b = true) ∧
    (∀ (w : SubmitWorld) (uid : String) (post : Option PostDoc)
        (action : PostAction) (value : PostFormValue) (c u i : String) (b : Bool),
        ExtCall.dbUpdateDocumentFlag c u i b ∈
          (handleSubmit env w uid post action value).1 →
        b = true) ∧
    (∀ (w : OnDropWorld) (userId file0 c col did : String) (doc : ImageDoc),
        ExtCall.dbCreateDocument c col did doc ∈ (onDrop env w userId file0).1 →
        doc.flag = false) := by
  refine ⟨?_, ?_, ?_, ?_⟩
  · intro w userId file0 c u i b hmem
    obtain ⟨cfa, cfr, cda, cdr, ml, ⟨fu, fi⟩⟩ := w
    unfold onDrop at hmem
    rcases cfr with e0 | fileId <;>
      rcases cdr with e | docId <;> rcases ml with e2 | ⟨_ | (_ | ⟨p, rest⟩)⟩ <;>
      rcases fu with e3 | u3 <;>
      (dsimp only at hmem; try split_ifs at hmem) <;>
      (simp_all [updateAppwriteFlags]; try tauto)
  · intro w file0 c u i b hmem
    obtain ⟨cfr, ml, ⟨lu, uu, li, ui⟩⟩ := w
    unfold onDropP at hmem
    rcases cfr with e0 | fileId <;>
      rcases ml with e2 | ⟨_ | (_ | ⟨p, rest⟩)⟩ <;>
      rcases lu with e3 | ⟨_ | ⟨uid1, us⟩⟩ <;>
      rcases uu with e4 | u4 <;>
      rcases li with e5 | ⟨_ | ⟨iid1, is1⟩⟩ <;>
      (dsimp only at hmem; try split_ifs at hmem) <;>
      (simp_all [updateAppwriteFlagsP]; try tauto)
  · intro w uid post action value c u i b hmem
    obtain ⟨upl, pp, heq, hupl, hpp⟩ :=
      handleSubmit_trace_decomp env w uid post action value
    rw [heq] at hmem
    simp only [List.mem_append] at hmem
    rcases hmem with ((h1 | h2) | h3) | h4
    · have := mem_checkTrace env w.check value.caption _ h1; simp_all
    · have := mem_flagPart env w uid value _ h2; simp_all
    · obtain ⟨f, hf⟩ := hupl _ h3; simp_all
    · have := hpp _ h4; simp_all [isPostWrite]
  · intro w userId file0 c col did doc hmem
    obtain ⟨cfa, cfr, cda, cdr, ml, ⟨fu, fi⟩⟩ := w
    unfold onDrop at hmem
    rcases cfr with e0 | fileId <;>
      rcases cdr with e | docId <;> rcases ml with e2 | ⟨_ | (_ | ⟨p, rest⟩)⟩ <;>
      rcases fu with e3 | u3 <;>
      (dsimp only at hmem; try split_ifs at hmem) <;>
      simp_all [updateAppwriteFlags]

/-- C9 witness: the user-flag write of the run `wHigh` is in the trace, and
the theorem concludes its flag value is true. -/
theorem flag_writes_always_true_witness :
    ExtCall.dbUpdateDocumentFlag "db" "users" "alice" true
      ∈ (onDrop testEnv wHigh "alice" "f").1 ∧ true = true := by
  have hm : ExtCall.dbUpdateDocumentFlag "db" "users" "alice" true
      ∈ (onDrop testEnv wHigh "alice" "f").1 := by
    simp [onDrop, wHigh, testEnv, updateAppwriteFlags]
    norm_num
  exact ⟨hm, (flag_writes_always_true testEnv).1 wHigh "alice" "f"
    "db" "users" "alice" true hm⟩

/-- C5: when the Sightengine request rejects, `checkForProhibitedContent`
returns false ("assume false on failure"), and consequently `handleSubmit`
performs no flag update at all on a moderation-service error. -/
theorem checkFail_no_flag_update (env : Env) (w : SubmitWorld) (uid : String)
    (post : Option PostDoc) (action : PostAction) (value : PostFormValue)
    (h : w.check.textCheckResult = Except.error ()) :
    (checkForProhibitedContent env w.check value.caption).2 = false ∧
    ∀ (c u i : String) (b : Bool),
      ExtCall.dbUpdateDocumentFlag c u i b ∉
        (handleSubmit env w uid post action value).1 := by
  have hfalse : (checkForProhibitedContent env w.check value.caption).2 = false := by
    unfold checkForProhibitedContent
    rw [h]
  refine ⟨hfalse, ?_⟩
  intro c u i b hmem
  obtain ⟨upl, pp, heq, hupl, hpp⟩ :=
    handleSubmit_trace_decomp env w uid post action value
  rw [heq] at hmem
  simp only [List.mem_append] at hmem
  rcases hmem with ((h1 | h2) | h3) | h4
  · have := mem_checkTrace env w.check value.caption _ h1; simp_all
  · have : flagPartOf env w uid value = [] := by simp [flagPartOf, hfalse]
    simp_all
  · obtain ⟨f, hf⟩ := hupl _ h3; simp_all
  · have := hpp _ h4; simp_all [isPostWrite]

/-- C5 witness: in the world `swCheckFail` the check returns false and the
"Users" flag write is absent from the submission's trace. -/
theorem checkFail_no_flag_update_witness :
    (checkForProhibitedContent testEnv swCheckFail.check "buy weed").2 = false ∧
    ExtCall.dbUpdateDocumentFlag "db2" "Users" "alice" true ∉
      (handleSubmit testEnv swCheckFail "alice" none PostAction.create valNoFile).1 := by
  have h := checkFail_no_flag_update testEnv swCheckFail "alice" none
    PostAction.create valNoFile rfl
  exact ⟨h.1, h.2 "db2" "Users" "alice" true⟩

/-- C10: in an Update submission with no new file selected, every
`updatePost` call of the submission keeps the existing post's `imageId` and
`imageUrl` unchanged, and such a call is indeed made. -/
theorem update_noFile_keeps_image (env : Env) (w : SubmitWorld) (uid : String)
    (p : PostDoc) (value : PostFormValue) (hfile : value.file = []) :
    (∀ q, ExtCall.updatePostCall q ∈
        (handleSubmit env w uid (some p) PostAction.update value).1 →
        q.imageId = p.imageId ∧ q.imageUrl = p.imageUrl) ∧
    ∃ q, ExtCall.updatePostCall q ∈
        (handleSubmit env w uid (some p) PostAction.update value).1 ∧
        q.imageId = p.imageId ∧ q.imageUrl = p.imageUrl := by
  have htrace : (handleSubmit env w uid (some p) PostAction.update value).1 =
      (checkForProhibitedContent env w.check value.caption).1
        ++ flagPartOf env w uid value
        ++ (handleSubmitPostStep w uid (some p) PostAction.update value none).1 := by
    simp [handleSubmit, hfile, flagPartOf]
  constructor
  · intro q hq
    rw [htrace] at hq
    simp only [List.mem_append] at hq
    rcases hq with (h1 | h2) | h3
    · have := mem_checkTrace env w.check value.caption _ h1; simp_all
    · have := mem_flagPart env w uid value _ h2; simp_all
    · have hq := mem_postStep_update w uid p value none q h3
      subst hq
      exact ⟨rfl, rfl⟩
  · refine ⟨
      { caption := value.caption, file := value.file,
        location := value.location, tags := value.tags, postId := p.id,
        imageId := jsOrElse none p.imageId, imageUrl := p.imageUrl },
      ?_, rfl, rfl⟩
    rw [htrace]
    simp only [List.mem_append]
    right
    exact postStep_update_mem w uid p value none

/-- C10 witness: updating `postD` with no file selected passes its old
`imageId` and `imageUrl` through to the `updatePost` call. -/
theorem update_noFile_keeps_image_witness :
    ∃ q, ExtCall.updatePostCall q ∈
        (handleSubmit testEnv swFlagged "alice" (some postD)
          PostAction.update valNoFile).1 ∧
        q.imageId = postD.imageId ∧ q.imageUrl = postD.imageUrl :=
  (update_noFile_keeps_image testEnv swFlagged "alice" postD valNoFile rfl).2

/-- C8: within a single submission the external calls are sequential in the
pipeline order (moderation check, then user-flag update, then file upload,
then post write): the trace is sorted by pipeline rank, its first call is
the moderation check, a user-flag update occurs exactly when the check
flagged the caption, an upload occurs exactly when a file is selected, and
a completed submission contains a post create/update call. -/
theorem handleSubmit_sequential (env : Env) (w : SubmitWorld) (uid : String)
    (post : Option PostDoc) (action : PostAction) (value : PostFormValue) :
    List.Pairwise (fun a b => pipelineRank a ≤ pipelineRank b)
      (handleSubmit env w uid post action value).1 ∧
    (handleSubmit env w uid post action value).1.head? =
      some (ExtCall.sightengineTextCheck SIGHTENGINE_URL
        [("text", value.caption), ("lang", "en"), ("categories", "drug"),
         ("mode", "rules"), ("api_user", env.SIGHTENGINE_USER),
         ("api_secret", env.SIGHTENGINE_SECRET)]) ∧
    ((∃ c ∈ (handleSubmit env w uid post action value).1, isFlagUpdate c = true) ↔
      (checkForProhibitedContent env w.check value.caption).2 = true) ∧
    ((∃ c ∈ (handleSubmit env w uid post action value).1, isStorageCreate c = true) ↔
      value.file ≠ []) ∧
    ((handleSubmit env w uid post action value).2 = Except.ok () →
      ∃ c ∈ (handleSubmit env w uid post action value).1, isPostWrite c = true) := by
  rcases hf : value.file with _ | ⟨f, fs⟩
  · obtain ⟨pc, hpc, hpcw⟩ := postStepTrace_eq w uid post action value none
    have htr : (handleSubmit env w uid post action value).1 =
        (checkForProhibitedContent env w.check value.caption).1
          ++ flagPartOf env w uid value
          ++ (handleSubmitPostStep w uid post action value none).1 := by
      simp [handleSubmit, hf, flagPartOf]
    rw [htr, checkTrace_eq, hpc, flagPart_eq]
    rcases pc with _ | _ | _ | _ | _ | _ | q | q <;> simp [isPostWrite] at hpcw <;>
      by_cases hfl : (checkForProhibitedContent env w.check value.caption).2 <;>
      refine ⟨?_, ?_, ?_, ?_, ?_⟩ <;>
      simp [hfl, hf, List.pairwise_cons, pipelineRank, isPostWrite,
        isFlagUpdate, isStorageCreate]
  · rcases hup : w.uploadFileResult with e | fid
    · have htr : (handleSubmit env w uid post action value).1 =
          (checkForProhibitedContent env w.check value.caption).1
            ++ flagPartOf env w uid value
            ++ [ExtCall.storageCreateFile env.STORAGE_BUCKET_ID "unique()" f] := by
        simp [handleSubmit, hf, flagPartOf, uploadFile, hup]
      have h2 : (handleSubmit env w uid post action value).2 = Except.error e := by
        simp [handleSubmit, hf, uploadFile, hup]
      rw [htr, checkTrace_eq, flagPart_eq, h2]
      by_cases hfl : (checkForProhibitedContent env w.check value.caption).2 <;>
        refine ⟨?_, ?_, ?_, ?_, ?_⟩ <;>
        simp [hfl, hf, List.pairwise_cons, pipelineRank,
          isFlagUpdate, isStorageCreate]
    · obtain ⟨pc, hpc, hpcw⟩ := postStepTrace_eq w uid post action value (some fid)
      have htr : (handleSubmit env w uid post action value).1 =
          (checkForProhibitedContent env w.check value.caption).1
            ++ flagPartOf env w uid value
            ++ [ExtCall.storageCreateFile env.STORAGE_BUCKET_ID "unique()" f]
            ++ (handleSubmitPostStep w uid post action value (some fid)).1 := by
        simp [handleSubmit, hf, flagPartOf, uploadFile, hup]
      rw [htr, checkTrace_eq, hpc, flagPart_eq]
      rcases pc with _ | _ | _ | _ | _ | _ | q | q <;> simp [isPostWrite] at hpcw <;>
        by_cases hfl : (checkForProhibitedContent env w.check value.caption).2 <;>
        refine ⟨?_, ?_, ?_, ?_, ?_⟩ <;>
        simp [hfl, hf, List.pairwise_cons, pipelineRank, isPostWrite,
          isFlagUpdate, isStorageCreate]

/-- C8 witness: the flagged no-file Create submission completes, and its
trace contains a post write (preceded, per the theorem, by the check and the
flag update). -/
theorem handleSubmit_sequential_witness :
    (handleSubmit testEnv swFlagged "alice" none PostAction.create valNoFile).2 =
      Except.ok () ∧
    ∃ c ∈ (handleSubmit testEnv swFlagged "alice" none PostAction.create valNoFile).1,
      isPostWrite c = true := by
  refine ⟨rfl, ?_⟩
  exact (handleSubmit_sequential testEnv swFlagged "alice" none PostAction.create
    valNoFile).2.2.2.2 rfl

/-- C2 counterexample: a submission whose caption the moderation service
flags (the response contains a drug match) still creates the post — the
check returns true, a `createPost` call is in the trace, and the submission
completes normally. -/
theorem flagged_post_still_created :
    (checkForProhibitedContent testEnv swFlagged.check "buy weed").2 = true ∧
    (∃ q, ExtCall.createPostCall q ∈
      (handleSubmit testEnv swFlagged "alice" none PostAction.create valNoFile).1) ∧
    (handleSubmit testEnv swFlagged "alice" none PostAction.create valNoFile).2 =
      Except.ok () := by
  refine ⟨rfl, ⟨?_, ?_⟩, rfl⟩
  · exact { caption := "buy weed", file := [], location := "", tags := "",
            userId := "alice", imageId := none }
  · decide

/-- C2 amended: `checkForProhibitedContent(caption)` completes before any
post is created or updated (its call is a prefix of every submission trace);
a flagged caption causes the user's flag to be updated, but it does not
prevent the post from being created — a no-file submission always reaches
the post write. -/
theorem check_before_post_no_block (env : Env) (w : SubmitWorld) (uid : String)
    (post : Option PostDoc) (action : PostAction) (value : PostFormValue) :
    (∃ rest, (handleSubmit env w uid post action value).1 =
        (checkForProhibitedContent env w.check value.caption).1 ++ rest) ∧
    ((checkForProhibitedContent env w.check value.caption).2 = true →
      ExtCall.dbUpdateDocumentFlag env.APPWRITE_DB_ID "Users" uid true ∈
        (handleSubmit env w uid post action value).1) ∧
    (value.file = [] →
      ∃ c ∈ (handleSubmit env w uid post action value).1, isPostWrite c = true) := by
  obtain ⟨upl, pp, heq, hupl, hpp⟩ :=
    handleSubmit_trace_decomp env w uid post action value
  refine ⟨⟨flagPartOf env w uid value ++ upl ++ pp, by rw [heq]; simp⟩, ?_, ?_⟩
  · intro hfl
    rw [heq]
    have hfp : flagPartOf env w uid value =
        [ExtCall.dbUpdateDocumentFlag env.APPWRITE_DB_ID "Users" uid true] := by
      rw [flagPart_eq, if_pos hfl]
    simp [hfp]
  · intro hfile
    obtain ⟨pc, hpc, hpcw⟩ := postStepTrace_eq w uid post action value none
    have htr : (handleSubmit env w uid post action value).1 =
        (checkForProhibitedContent env w.check value.caption).1
          ++ flagPartOf env w uid value
          ++ (handleSubmitPostStep w uid post action value none).1 := by
      simp [handleSubmit, hfile, flagPartOf]
    refine ⟨pc, ?_, hpcw⟩
    rw [htr, hpc]
    simp

/-- C2 amended witness: in the flagged no-file Create submission the user
flag is updated and the post write is still performed. -/
theorem check_before_post_no_block_witness :
    ExtCall.dbUpdateDocumentFlag "db2" "Users" "alice" true ∈
      (handleSubmit testEnv swFlagged "alice" none PostAction.create valNoFile).1 ∧
    ∃ c ∈ (handleSubmit testEnv swFlagged "alice" none PostAction.create valNoFile).1,
      isPostWrite c = true := by
  have h := check_before_post_no_block testEnv swFlagged "alice" none
    PostAction.create valNoFile
  exact ⟨h.2.1 rfl, h.2.2 rfl⟩

/-- C3 counterexample: with the same uploaded file and the same
above-threshold ML response, the shared uploader flags user "alice" (the
uploader) and the image document it created, while part_000 flags user
"bob" and image "img7" — the first documents its flag=false queries
returned. The two flag-update traces differ. -/
theorem uploaders_not_equivalent :
    flagUpdates (onDrop testEnv wHigh "alice" "f").1 =
      [ExtCall.dbUpdateDocumentFlag "db" "users" "alice" true,
       ExtCall.dbUpdateDocumentFlag "db" "images" "imgdoc1" true] ∧
    flagUpdates (onDropP testEnv pwHigh "f").1 =
      [ExtCall.dbUpdateDocumentFlag "db" "users" "bob" true,
       ExtCall.dbUpdateDocumentFlag "db" "images" "img7" true] ∧
    flagUpdates (onDrop testEnv wHigh "alice" "f").1 ≠
      flagUpdates (onDropP testEnv pwHigh "f").1 := by
  have h1 : flagUpdates (onDrop testEnv wHigh "alice" "f").1 =
      [ExtCall.dbUpdateDocumentFlag "db" "users" "alice" true,
       ExtCall.dbUpdateDocumentFlag "db" "images" "imgdoc1" true] := by
    norm_num [onDrop, wHigh, testEnv, updateAppwriteFlags, flagUpdates,
      isFlagUpdate, List.filter]
  have h2 : flagUpdates (onDropP testEnv pwHigh "f").1 =
      [ExtCall.dbUpdateDocumentFlag "db" "users" "bob" true,
       ExtCall.dbUpdateDocumentFlag "db" "images" "img7" true] := by
    norm_num [onDropP, pwHigh, testEnv, updateAppwriteFlagsP, flagUpdates,
      isFlagUpdate, List.filter]
  refine ⟨h1, h2, ?_⟩
  rw [h1, h2]
  decide

/-- C3 amended: the two FileUploader implementations are not equivalent in
general. Given the same above-threshold response, the shared uploader
updates the uploading user's document and the image document it just
created, while part_000 updates the first user document and the first image
document whose flag was false (skipping a collection whose query came back
empty); they coincide only when those happen to be the same documents. -/
theorem uploaders_flag_targets (env : Env) (w : OnDropWorld) (pw : POnDropWorld)
    (userId file0 fileId fileId2 docId : String) (p : Prediction)
    (rest : List Prediction) (users images : List String)
    (hw1 : w.createFileResult = Except.ok fileId)
    (hw2 : w.createDocumentResult = Except.ok docId)
    (hw3 : w.mlResult = Except.ok ⟨some (p :: rest)⟩)
    (hw4 : w.flags.updateUserResult = Except.ok ())
    (hp1 : pw.createFileResult = Except.ok fileId2)
    (hp3 : pw.mlResult = Except.ok ⟨some (p :: rest)⟩)
    (hp4 : pw.flags.listUsersResult = Except.ok users)
    (hp5 : pw.flags.updateUserResult = Except.ok ())
    (hp6 : pw.flags.listImagesResult = Except.ok images)
    (hconf : p.confidence * 100 > 50) :
    flagUpdates (onDrop env w userId file0).1 =
      [ExtCall.dbUpdateDocumentFlag env.DATABASE_ID env.USER_COLLECTION_ID
         userId true,
       ExtCall.dbUpdateDocumentFlag env.DATABASE_ID env.IMAGE_COLLECTION_ID
         docId true] ∧
    flagUpdates (onDropP env pw file0).1 =
      firstUnflaggedTrace env env.USER_COLLECTION_ID users ++
      firstUnflaggedTrace env env.IMAGE_COLLECTION_ID images := by
  constructor
  · obtain ⟨cfa, cfr, cda, cdr, ml, ⟨fu, fi⟩⟩ := w
    dsimp only at hw1 hw2 hw3 hw4
    subst hw1 hw2 hw3 hw4
    simp [onDrop, hconf, updateAppwriteFlags, flagUpdates, isFlagUpdate,
      List.filter]
  · obtain ⟨cfr, ml, ⟨lu, uu, li, ui⟩⟩ := pw
    dsimp only at hp1 hp3 hp4 hp5 hp6
    subst hp1 hp3 hp4 hp5 hp6
    rcases users with _ | ⟨u1, us⟩ <;> rcases images with _ | ⟨i1, is1⟩ <;>
      simp [onDropP, hconf, updateAppwriteFlagsP, flagUpdates, isFlagUpdate,
        firstUnflaggedTrace, List.filter]

/-- C3 amended witness: the shared uploader flags alice and its created
image document; part_000 flags the heads of its query results. -/
theorem uploaders_flag_targets_witness :
    flagUpdates (onDrop testEnv wHigh "alice" "f").1 =
      [ExtCall.dbUpdateDocumentFlag "db" "users" "alice" true,
       ExtCall.dbUpdateDocumentFlag "db" "images" "imgdoc1" true] ∧
    flagUpdates (onDropP testEnv pwHigh "f").1 =
      firstUnflaggedTrace testEnv "users" ["bob", "carol"] ++
      firstUnflaggedTrace testEnv "images" ["img7"] :=
  uploaders_flag_targets testEnv wHigh pwHigh "alice" "f" "file1"
    "file1" "imgdoc1" ⟨9/10⟩ [] ["bob", "carol"] ["img7"]
    rfl rfl rfl rfl rfl rfl rfl rfl rfl (by norm_num)

/-- C4 counterexample: when the storage upload rejects, `handleSubmit`
rethrows — the submission handler propagates the error to its caller
instead of swallowing it. -/
theorem uploadFail_handleSubmit_throws :
    (handleSubmit testEnv swUploadFail "alice" none PostAction.create valFile).2 =
      Except.error () := by
  rfl

/-- C4 amended: both `onDrop` handlers never throw (all their errors are
caught and logged), and in `handleSubmit` the moderation-check and
user-flag-update errors never propagate: an error escaping `handleSubmit`
can only come from the rethrowing file upload or from the `updatePost` /
`createPost` mutations. -/
theorem handlers_error_behaviour (env : Env) :
    (∀ (w : OnDropWorld) (userId file0 : String),
      (onDrop env w userId file0).2 = Except.ok ()) ∧
    (∀ (w : POnDropWorld) (file0 : String),
      (onDropP env w file0).2 = Except.ok ()) ∧
    (∀ (w : SubmitWorld) (uid : String) (post : Option PostDoc)
        (action : PostAction) (value : PostFormValue) (e : Unit),
      (handleSubmit env w uid post action value).2 = Except.error e →
      (value.file ≠ [] ∧ w.uploadFileResult = Except.error ()) ∨
        w.updatePostResult = Except.error () ∨
        w.createPostResult = Except.error ()) := by
  refine ⟨?_, ?_, ?_⟩
  · intro w userId file0
    obtain ⟨cfa, cfr, cda, cdr, ml, ⟨fu, fi⟩⟩ := w
    unfold onDrop
    rcases cfr with e0 | fileId <;>
      rcases cdr with e | docId <;> rcases ml with e2 | ⟨_ | (_ | ⟨p, rest⟩)⟩ <;>
      rcases fu with e3 | u3 <;>
      (dsimp only; try split_ifs) <;>
      simp [updateAppwriteFlags]
  · intro w file0
    obtain ⟨cfr, ml, ⟨lu, uu, li, ui⟩⟩ := w
    unfold onDropP
    rcases cfr with e0 | fileId <;>
      rcases ml with e2 | ⟨_ | (_ | ⟨p, rest⟩)⟩ <;>
      rcases lu with e3 | ⟨_ | ⟨uid1, us⟩⟩ <;>
      rcases uu with e4 | u4 <;>
      rcases li with e5 | ⟨_ | ⟨iid1, is1⟩⟩ <;>
      (dsimp only; try split_ifs) <;>
      simp [updateAppwriteFlagsP]
  · intro w uid post action value e herr
    obtain ⟨⟨tc⟩, uu, uf, up, cp⟩ := w
    unfold handleSubmit at herr
    rcases hf : value.file with _ | ⟨f, fs⟩ <;> rw [hf] at herr <;>
      rcases uf with e1 | fid <;>
      rcases post with _ | p <;> rcases action with _ | _ <;>
      rcases up with e2 | b <;> rcases cp with e3 | b2 <;>
      simp_all [handleSubmitPostStep, uploadFile]

/-- C4 amended witness: the error that escaped the submission of
`swUploadFail` is traced back to the rejected file upload. -/
theorem handlers_error_behaviour_witness :
    (valFile.file ≠ [] ∧ swUploadFail.uploadFileResult = Except.error ()) ∨
      swUploadFail.updatePostResult = Except.error () ∨
      swUploadFail.createPostResult = Except.error () :=
  (handlers_error_behaviour testEnv).2.2 swUploadFail "alice" none
    PostAction.create valFile () rfl

/-- C7 counterexample: the form data actually sent to the Sightengine
endpoint carries six parameters — text, lang, categories, mode AND the
credentials api_user and api_secret — so it is not exactly the four
parameters the claim lists. -/
theorem sightengine_extra_params :
    (checkForProhibitedContent testEnv swFlagged.check "hello").1 =
      [ExtCall.sightengineTextCheck SIGHTENGINE_URL
        [("text", "hello"), ("lang", "en"), ("categories", "drug"),
         ("mode", "rules"), ("api_user", "su"), ("api_secret", "ss")]] ∧
    [(("text", "hello") : String × String), ("lang", "en"), ("categories", "drug"),
     ("mode", "rules"), ("api_user", "su"), ("api_secret", "ss")] ≠
      [("text", "hello"), ("lang", "en"), ("categories", "drug"),
       ("mode", "rules")] := by
  exact ⟨rfl, by decide⟩

/-- C7 amended: `checkForProhibitedContent` posts to the Sightengine
endpoint exactly the caption text, lang=en, categories=drug, mode=rules and
the api_user/api_secret credentials, and on a successful response returns
true if and only if some match in `drug.matches` has type "drug". -/
theorem checkForProhibitedContent_spec (env : Env) (cw : CheckWorld)
    (caption : String) :
    (checkForProhibitedContent env cw caption).1 =
      [ExtCall.sightengineTextCheck SIGHTENGINE_URL
        [("text", caption), ("lang", "en"), ("categories", "drug"),
         ("mode", "rules"), ("api_user", env.SIGHTENGINE_USER),
         ("api_secret", env.SIGHTENGINE_SECRET)]] ∧
    ∀ data, cw.textCheckResult = Except.ok data →
      ((checkForProhibitedContent env cw caption).2 = true ↔
        ∃ m ∈ data.drug.matches, m.«type» = "drug") := by
  refine ⟨checkTrace_eq env cw caption, ?_⟩
  intro data h
  obtain ⟨tc⟩ := cw
  dsimp only at h
  subst h
  simp [checkForProhibitedContent, List.any_eq_true]

/-- C7 amended witness: on the concrete drug-match response the check
returns true, matching the existential characterization. -/
theorem checkForProhibitedContent_spec_witness :
    (checkForProhibitedContent testEnv swFlagged.check "buy weed").2 = true ↔
      ∃ m ∈ (⟨⟨[⟨"drug", "weed", 4, 8⟩]⟩⟩ : SightengineData).drug.matches,
        m.«type» = "drug" :=
  (checkForProhibitedContent_spec testEnv swFlagged.check "buy weed").2
    ⟨⟨[⟨"drug", "weed", 4, 8⟩]⟩⟩ rfl

end Ripp
